import Mathlib

/-!
Verification of the loan report-assembly pipeline (`loan_monitor.py`).

The pipeline is: fetch due loans from the database (`fetch_due_loans`),
render a styled spreadsheet (`generate_excel_report`), build the HTML
email body (`build_email_body`) and deliver it (`send_email`, driven by
`main`).  Dates are modelled as integer day numbers: the SQL layer stores
ISO `YYYY-MM-DD` strings whose lexicographic order coincides with
chronological order, so `≤` on day numbers is a faithful model of the
query's date comparisons.  Monetary amounts are modelled as integers
(the code never does arithmetic on them beyond summation).
-/

namespace LoanMonitor

/-- One row of the SQL join produced by the query in `fetch_due_loans`
(`loan_monitor.py` lines 122-140): loan joined with customer and branch
attributes.  `dueDate` is the day number of the loan's due date. -/
structure Loan where
  customerName : String
  loanId : String
  amountBorrowed : Int
  outstandingBalance : Int
  dueDate : Int
  phoneNumber : String
  email : String
  loanOfficer : String
  branchName : String
  loanStatus : String
deriving Repr, DecidableEq

/-- One row of the canonical report table as returned by
`fetch_due_loans` after the derived-field computations (lines 145-165):
`daysRemaining` is the derived signed day count and
`loanOfficerBranch` the combined officer/branch label. -/
structure LoanRecord where
  customerName : String
  loanId : String
  amountBorrowed : Int
  outstandingBalance : Int
  dueDate : Int
  daysRemaining : Int
  phoneNumber : String
  email : String
  loanOfficerBranch : String
  loanStatus : String
deriving Repr, DecidableEq

/-- The WHERE clause of the query (lines 117-120 and 137-138):
`due_date <= cutoff` when overdue loans are included, otherwise
`due_date BETWEEN today AND cutoff`; in both cases
`loan_status != 'Paid'`.  `cutoff = today + daysAhead` (line 115). -/
def duePredicate (today daysAhead : Int) (includeOverdue : Bool) (l : Loan) : Bool :=
  (if includeOverdue then decide (l.dueDate ≤ today + daysAhead)
   else decide (today ≤ l.dueDate) && decide (l.dueDate ≤ today + daysAhead))
  && !(l.loanStatus == "Paid")

/-- The `ORDER BY l.due_date ASC` ordering of the query (line 139). -/
def dueLE (a b : Loan) : Prop := a.dueDate ≤ b.dueDate

instance : DecidableRel dueLE :=
  fun a b => inferInstanceAs (Decidable (a.dueDate ≤ b.dueDate))

instance : IsTotal Loan dueLE := ⟨fun a b => Int.le_total a.dueDate b.dueDate⟩

instance : IsTrans Loan dueLE := ⟨fun _ _ _ hab hbc => Int.le_trans hab hbc⟩

/-- The per-row derived-field computations of `fetch_due_loans`
(lines 145-151): `Days Remaining = due date - today` and
`Loan Officer / Branch = officer ++ " / " ++ branch`. -/
def processRow (today : Int) (l : Loan) : LoanRecord :=
  { customerName := l.customerName
    loanId := l.loanId
    amountBorrowed := l.amountBorrowed
    outstandingBalance := l.outstandingBalance
    dueDate := l.dueDate
    daysRemaining := l.dueDate - today
    phoneNumber := l.phoneNumber
    email := l.email
    loanOfficerBranch := l.loanOfficer ++ " / " ++ l.branchName
    loanStatus := l.loanStatus }

/-- `fetch_due_loans` (lines 109-168) applied to the table of loans:
SQL filtering and ascending-by-due-date ordering, then the derived
columns.  `today` is the value of `date.today()` read once at line 114. -/
def fetch_due_loans (loans : List Loan) (today : Int) (daysAhead : Int)
    (includeOverdue : Bool) : List LoanRecord :=
  (List.insertionSort dueLE
      (loans.filter (duePredicate today daysAhead includeOverdue))).map
    (processRow today)

/-- The column reorder applied at the end of `fetch_due_loans`
(lines 154-165); this is `df.columns` for everything downstream,
including the spreadsheet header row (lines 241-247). -/
def fetchColumnOrder : List String :=
  ["Customer Name", "Loan ID", "Amount Borrowed", "Outstanding Balance",
   "Due Date", "Days Remaining", "Phone Number", "Email",
   "Loan Officer / Branch", "Loan Status"]

/-- Modelled from the spec (§6): the canonical column order that both the
file rendering and the email rendering are claimed to present. -/
def canonicalColumns : List String :=
  ["Customer Name", "Loan ID", "Amount Borrowed", "Outstanding Balance",
   "Due Date", "Days Remaining", "Phone Number", "Email",
   "Loan Officer / Branch", "Loan Status"]

/-- Colour constant `CLR_OVERDUE_BG` (line 178). -/
def CLR_OVERDUE_BG : String := "FFE0E0"

/-- Colour constant `CLR_ALT_ROW` (line 180). -/
def CLR_ALT_ROW : String := "F5F8FF"

/-- The spreadsheet data-row background fill (lines 250-260): overdue
tint when `status == "Overdue" or days_remaining < 0`, otherwise
alternating by spreadsheet row index (which starts at 5). -/
def excelRowFill (status : String) (daysRemaining : Int) (rowIdx : Nat) : String :=
  if status = "Overdue" ∨ daysRemaining < 0 then CLR_OVERDUE_BG
  else if rowIdx % 2 = 0 then CLR_ALT_ROW
  else "FFFFFF"

/-- The email detail-row background colour (line 399): red tint only
when `row["Loan Status"] == "Overdue"`, otherwise alternating by the
DataFrame index. -/
def emailRowColor (status : String) (dfIndex : Nat) : String :=
  if status = "Overdue" then "#ffe0e0"
  else if dfIndex % 2 = 0 then "#ffffff" else "#f5f8ff"

/-- Whether the email Days-Remaining cell is rendered in the red-bold
overdue style with the `(Overdue)` tag (lines 400-404): exactly when
`row["Days Remaining"] < 0`. -/
def emailDaysDisplayOverdue (daysRemaining : Int) : Bool :=
  decide (daysRemaining < 0)

/-- Summary-sheet count `Overdue Loans` (lines 332 and 342):
`len(df[df["Loan Status"] == "Overdue"])`. -/
def overdueLoansCount (df : List LoanRecord) : Nat :=
  (df.filter (fun r => r.loanStatus == "Overdue")).length

/-- Summary-sheet count `Active Loans` (lines 333 and 341). -/
def activeLoansCount (df : List LoanRecord) : Nat :=
  (df.filter (fun r => r.loanStatus == "Active")).length

/-- Summary-sheet sum `Overdue Outstanding` (line 347):
`overdue_df["Outstanding Balance"].sum()` over the status-filtered frame. -/
def overdueOutstanding (df : List LoanRecord) : Int :=
  ((df.filter (fun r => r.loanStatus == "Overdue")).map
      LoanRecord.outstandingBalance).sum

/-- Summary-sheet count `Due Today` (line 350). -/
def dueTodayCount (df : List LoanRecord) : Nat :=
  (df.filter (fun r => r.daysRemaining == 0)).length

/-- Summary-sheet count `Due in 1-3 Days` (line 351). -/
def due1to3Count (df : List LoanRecord) : Nat :=
  (df.filter (fun r => decide (1 ≤ r.daysRemaining) && decide (r.daysRemaining ≤ 3))).length

/-- Summary-sheet count `Due in 4-7 Days` (line 352). -/
def due4to7Count (df : List LoanRecord) : Nat :=
  (df.filter (fun r => decide (4 ≤ r.daysRemaining) && decide (r.daysRemaining ≤ 7))).length

/-- Summary-sheet count `Already Overdue` (line 353):
`len(df[df["Days Remaining"] < 0])`, regardless of the status string. -/
def alreadyOverdueCount (df : List LoanRecord) : Nat :=
  (df.filter (fun r => decide (r.daysRemaining < 0))).length

/-- Email summary figure `Overdue Loans` (line 392):
`len(df[df["Loan Status"] == "Overdue"])`. -/
def emailOverdueCount (df : List LoanRecord) : Nat :=
  (df.filter (fun r => r.loanStatus == "Overdue")).length

/-- Email summary figure `Overdue Outstanding` (line 395):
`df[df["Loan Status"] == "Overdue"]["Outstanding Balance"].sum()`. -/
def emailOverdueOutstanding (df : List LoanRecord) : Int :=
  ((df.filter (fun r => r.loanStatus == "Overdue")).map
      LoanRecord.outstandingBalance).sum

/-- The header labels of the email detail table (lines 458-466):
nine `<th>` cells. -/
def emailHeaderColumns : List String :=
  ["Customer Name", "Loan ID", "Amount Borrowed", "Outstanding Balance",
   "Due Date", "Days Remaining", "Phone", "Loan Officer / Branch", "Status"]

/-- The DataFrame keys read for the nine `<td>` cells of each email
detail row (lines 408-416), in rendering order. -/
def emailRowFieldKeys : List String :=
  ["Customer Name", "Loan ID", "Amount Borrowed", "Outstanding Balance",
   "Due Date", "Days Remaining", "Phone Number", "Loan Officer / Branch",
   "Loan Status"]

/-- The relabelling the email header applies to the canonical column
names it does render (`Phone Number` appears as `Phone`, `Loan Status`
as `Status`; lines 464 and 466). -/
def emailHeaderRelabel (c : String) : String :=
  if c = "Phone Number" then "Phone"
  else if c = "Loan Status" then "Status"
  else c

/-- The outputs of one pipeline run (`main`, lines 528-567) that the
date-consistency and header claims are about.  `clock n` is the value
returned by the n-th call to `date.today()` in program order: the code
re-reads the clock separately inside `fetch_due_loans` (line 114),
`generate_excel_report` (line 202), `send_email`'s subject (line 494)
and `build_email_body` (line 391). -/
structure PipelineOutput where
  table : List LoanRecord
  reportGeneratedDate : Int
  subtitleRangeEnd : Int
  summaryReportDate : Int
  reportingPeriod : String
  subjectDate : Int
  emailBodyDate : Int
deriving Repr, DecidableEq

/-- The pipeline run: fetch with the first clock reading, then render
the report whose generated-on and subtitle dates come from the second
reading (`generate_excel_report` lines 202, 228-229, 336-337: the
subtitle's due-date range always ends at `today + timedelta(days=7)`
and the Reporting Period cell is the fixed string), then the email
whose subject and body dates come from the third and fourth readings. -/
def runPipeline (clock : Nat → Int) (loans : List Loan) (daysAhead : Int)
    (includeOverdue : Bool) : PipelineOutput :=
  let fetchDate := clock 0
  let renderDate := clock 1
  { table := fetch_due_loans loans fetchDate daysAhead includeOverdue
    reportGeneratedDate := renderDate
    subtitleRangeEnd := renderDate + 7
    summaryReportDate := renderDate
    reportingPeriod := "Next 7 Days + Overdue"
    subjectDate := clock 2
    emailBodyDate := clock 3 }

/-- A row as it comes back from the SQL query, its due-date column not
yet converted: `dueDateRaw = some d` when the stored string parses to
the calendar day `d`, `none` when it is unparsable. -/
structure FetchedRow where
  dueDateRaw : Option Int
deriving Repr, DecidableEq

/-- The due-date conversion step of `fetch_due_loans` (line 146):
`pd.to_datetime(df["Due Date"])` with the default `errors="raise"`
raises on the first unparsable value, aborting the whole conversion;
it never drops individual rows. -/
def toDatetimeColumn : List FetchedRow → Except String (List Int)
  | [] => Except.ok []
  | r :: rs =>
    match r.dueDateRaw with
    | none => Except.error "ParserError"
    | some d =>
      match toDatetimeColumn rs with
      | Except.error e => Except.error e
      | Except.ok ds => Except.ok (d :: ds)

/-- A calendar date as formatted by `strftime("%Y%m%d")`. -/
structure CalendarDate where
  year : Nat
  month : Nat
  day : Nat
deriving Repr, DecidableEq

/-- Left-pad a decimal string with zeros to the given width, as the
`%Y`/`%m`/`%d` format directives do. -/
def padZeros (width : Nat) (s : String) : String :=
  String.mk (List.replicate (width - s.length) '0') ++ s

/-- `today.strftime("%Y%m%d")` (line 205). -/
def ymdStamp (d : CalendarDate) : String :=
  padZeros 4 (toString d.year) ++ padZeros 2 (toString d.month)
    ++ padZeros 2 (toString d.day)

/-- The artifact filename built in `generate_excel_report` (line 205):
`reports/Loans_Due_Report_{today.strftime('%Y%m%d')}.xlsx`. -/
def reportFilename (d : CalendarDate) : String :=
  "reports/Loans_Due_Report_" ++ ymdStamp d ++ ".xlsx"

/-- A pipeline run for the path-uniqueness claim: its calendar date and
its start minute within that day (which distinguishes two runs started
on the same date but is never consulted by the filename code). -/
structure PipelineRun where
  startDate : CalendarDate
  startMinuteOfDay : Nat
deriving Repr, DecidableEq

/-- The artifact path a run produces: `generate_excel_report` stamps the
filename with the calendar date only (line 205). -/
def artifactPathOfRun (run : PipelineRun) : String :=
  reportFilename run.startDate

/-- What `main` leaves behind after the delivery phase: the run outcome,
the set of files on disk, and the artifact location logged on the
failure path (line 557). -/
structure DeliveryOutcome where
  result : Except String Unit
  files : List String
  reportedLocation : Option String

/-- The delivery-and-cleanup tail of `main` (lines 552-563): on send
failure the error is logged together with the report path and re-raised
(lines 555-558), so the cleanup is never reached; on success the local
copy is removed only when `save_local_copy` is false and the file
exists (lines 561-563). -/
def sendAndCleanup (files : List String) (reportPath : String)
    (sendOk : Bool) (saveLocalCopy : Bool) : DeliveryOutcome :=
  if sendOk then
    if saveLocalCopy = false ∧ reportPath ∈ files then
      { result := Except.ok ()
        files := files.filter (fun q => decide (q ≠ reportPath))
        reportedLocation := none }
    else
      { result := Except.ok (), files := files, reportedLocation := none }
  else
    { result := Except.error "DeliveryError", files := files
      reportedLocation := some reportPath }

/-- `main` from rendering onwards: `wb.save(filename)` in
`generate_excel_report` (line 381) puts the artifact on disk, then the
delivery phase runs (lines 552-563). -/
def renderAndDeliver (files : List String) (reportPath : String)
    (sendOk : Bool) (saveLocalCopy : Bool) : DeliveryOutcome :=
  sendAndCleanup (reportPath :: files) reportPath sendOk saveLocalCopy

/-! Concrete sample data used by counterexamples and witnesses. -/

/-- A clock that advances by one day per reading, as happens when a run
crosses midnight between two `date.today()` calls. -/
def clockAdvancing : Nat → Int := fun n => (n : Int)

/-- A sample active loan due on day 3. -/
def loanA : Loan :=
  { customerName := "Alice", loanId := "L1", amountBorrowed := 1000
    outstandingBalance := 400, dueDate := 3, phoneNumber := "0700"
    email := "a@x.co", loanOfficer := "Otieno", branchName := "Nairobi"
    loanStatus := "Active" }

/-- A sample overdue loan due on day -1. -/
def loanB : Loan :=
  { customerName := "Bob", loanId := "L2", amountBorrowed := 2000
    outstandingBalance := 1500, dueDate := -1, phoneNumber := "0701"
    email := "b@x.co", loanOfficer := "Wanjiru", branchName := "Mombasa"
    loanStatus := "Overdue" }

/-- A sample paid loan due on day 2, which the query must exclude. -/
def loanP : Loan :=
  { customerName := "Cara", loanId := "L3", amountBorrowed := 500
    outstandingBalance := 0, dueDate := 2, phoneNumber := "0702"
    email := "c@x.co", loanOfficer := "Otieno", branchName := "Nairobi"
    loanStatus := "Paid" }

/-- A report record with the given days-remaining and status and blank
contact fields, for concrete summary computations. -/
def sampleRecord (days : Int) (status : String) : LoanRecord :=
  { customerName := "", loanId := "", amountBorrowed := 0
    outstandingBalance := 0, dueDate := days, daysRemaining := days
    phoneNumber := "", email := "", loanOfficerBranch := ""
    loanStatus := status }

/-- A sample report table spanning all four buckets plus one record
beyond the 7-day bound. -/
def sampleDf : List LoanRecord :=
  [sampleRecord (-2) "Active", sampleRecord 0 "Active",
   sampleRecord 2 "Active", sampleRecord 5 "Overdue",
   sampleRecord 9 "Overdue"]

/-- A run started at 09:00 on 2026-10-12. -/
def runA : PipelineRun := ⟨⟨2026, 10, 12⟩, 540⟩

/-- A second, distinct run started at 15:30 on the same date. -/
def runB : PipelineRun := ⟨⟨2026, 10, 12⟩, 930⟩

/-- A fetched frame with one unparsable due date among two clean rows. -/
def dirtyRows : List FetchedRow := [⟨some 5⟩, ⟨none⟩, ⟨some 6⟩]

/-- C10: for every lookahead window and include-overdue flag, the
spreadsheet's subtitle band states a due-date range ending exactly 7
days after the report date, and the summary sheet's Reporting Period
value is the fixed string "Next 7 Days + Overdue"; both are the same
for any two window/flag configurations. -/
theorem C10_fixed_subtitle_and_period (clock : Nat → Int) (loans : List Loan)
    (wa wb : Int) (inca incb : Bool) :
    (runPipeline clock loans wa inca).subtitleRangeEnd
        = (runPipeline clock loans wa inca).reportGeneratedDate + 7 ∧
    (runPipeline clock loans wa inca).reportingPeriod = "Next 7 Days + Overdue" ∧
    (runPipeline clock loans wa inca).subtitleRangeEnd
        = (runPipeline clock loans wb incb).subtitleRangeEnd ∧
    (runPipeline clock loans wa inca).reportingPeriod
        = (runPipeline clock loans wb incb).reportingPeriod :=
  ⟨rfl, rfl, rfl, rfl⟩

/-- C6 counterexample: the email detail table renders only nine
columns, omits the Email column, and its header row is not the
canonical ten-column list, refuting the claim that both renderings
present all ten canonical columns. -/
theorem C6_email_columns_cex :
    emailHeaderColumns.length = 9 ∧ "Email" ∉ emailRowFieldKeys ∧
    emailHeaderColumns ≠ canonicalColumns := by decide

/-- C6 amended: the spreadsheet presents the ten canonical columns in
canonical order, while the email detail table presents nine columns —
the canonical order with the Email column omitted, relabelling
Phone Number as Phone and Loan Status as Status. -/
theorem C6_column_order :
    fetchColumnOrder = canonicalColumns ∧
    emailRowFieldKeys = canonicalColumns.filter (fun c => decide (c ≠ "Email")) ∧
    emailHeaderColumns = emailRowFieldKeys.map emailHeaderRelabel := by decide

/-- C9: the Overdue Loans count and Overdue Outstanding sum (identical
in the spreadsheet summary and the email summary) count a record
exactly when its Loan Status string equals "Overdue", regardless of
its days remaining, while the Already Overdue bucket counts a record
exactly when its days remaining is negative, regardless of status. -/
theorem C9_summary_overdue_by_status (df : List LoanRecord) (r : LoanRecord) :
    overdueLoansCount (r :: df)
        = (if r.loanStatus = "Overdue" then 1 else 0) + overdueLoansCount df ∧
    overdueOutstanding (r :: df)
        = (if r.loanStatus = "Overdue" then r.outstandingBalance else 0)
            + overdueOutstanding df ∧
    alreadyOverdueCount (r :: df)
        = (if r.daysRemaining < 0 then 1 else 0) + alreadyOverdueCount df ∧
    emailOverdueCount df = overdueLoansCount df ∧
    emailOverdueOutstanding df = overdueOutstanding df := by
  refine ⟨?_, ?_, ?_, rfl, rfl⟩
  · by_cases hs : r.loanStatus = "Overdue"
    · simp [overdueLoansCount, List.filter_cons, hs]
      omega
    · simp [overdueLoansCount, List.filter_cons, hs]
  · by_cases hs : r.loanStatus = "Overdue"
    · simp [overdueOutstanding, List.filter_cons, hs]
    · simp [overdueOutstanding, List.filter_cons, hs]
  · by_cases hd : r.daysRemaining < 0
    · simp [alreadyOverdueCount, List.filter_cons, hd]
      omega
    · simp [alreadyOverdueCount, List.filter_cons, hd]

/-- C2 counterexample: in the email rendering, a record with status
Active and days remaining -2 is not given the overdue row background,
refuting the claim that both renderings flag a row overdue exactly
when status is Overdue or days remaining is negative. -/
theorem C2_email_or_rule_cex :
    ¬ (emailRowColor "Active" 0 = "#ffe0e0" ↔
        ("Active" : String) = "Overdue" ∨ (-2 : Int) < 0) := by decide

/-- C2 amended: the spreadsheet flags a data row with the overdue
background exactly when status is Overdue or days remaining is
negative; the email row background is overdue-tinted exactly when
status is Overdue, while negative days remaining only renders the
email Days Remaining cell in the red overdue style. -/
theorem C2_overdue_flagging (status : String) (days : Int) (i j : Nat) :
    (excelRowFill status days i = CLR_OVERDUE_BG ↔ (status = "Overdue" ∨ days < 0)) ∧
    (emailRowColor status j = "#ffe0e0" ↔ status = "Overdue") ∧
    (emailDaysDisplayOverdue days = true ↔ days < 0) := by
  refine ⟨?_, ?_, ?_⟩
  · by_cases hc : status = "Overdue" ∨ days < 0
    · simp [excelRowFill, hc]
    · simp only [excelRowFill, if_neg hc]
      constructor
      · intro h
        by_cases hi : i % 2 = 0
        · rw [if_pos hi] at h; exact absurd h (by decide)
        · rw [if_neg hi] at h; exact absurd h (by decide)
      · intro h; exact absurd h hc
  · by_cases hs : status = "Overdue"
    · simp [emailRowColor, hs]
    · simp only [emailRowColor, if_neg hs]
      constructor
      · intro h
        by_cases hj : j % 2 = 0
        · rw [if_pos hj] at h; exact absurd h (by decide)
        · rw [if_neg hj] at h; exact absurd h (by decide)
      · intro h; exact absurd h hs
  · simp [emailDaysDisplayOverdue]

/-- C8 counterexample: two distinct runs started on the same calendar
date produce the same artifact path, refuting per-run uniqueness. -/
theorem C8_same_day_collision_cex :
    runA ≠ runB ∧ artifactPathOfRun runA = artifactPathOfRun runB :=
  ⟨by decide, rfl⟩

/-- C8 amended: the date-stamped artifact path is determined by the
run's calendar date alone, so any two runs started on the same
calendar date produce the same (colliding) path — uniqueness holds at
most per calendar date, never per run. -/
theorem C8_path_depends_only_on_date (r1 r2 : PipelineRun)
    (h : r1.startDate = r2.startDate) :
    artifactPathOfRun r1 = artifactPathOfRun r2 := by
  simp [artifactPathOfRun, h]

/-- C8 amended witness: the two same-day sample runs get equal paths. -/
theorem C8_path_depends_only_on_date_witness :
    artifactPathOfRun runA = artifactPathOfRun runB :=
  C8_path_depends_only_on_date runA runB rfl

/-- C5 counterexample: on a frame with one unparsable due date among
two clean rows, the due-date conversion raises instead of producing
the two remaining rows, refuting the skip-and-log claim. -/
theorem C5_parse_abort_cex :
    toDatetimeColumn dirtyRows = Except.error "ParserError" ∧
    toDatetimeColumn dirtyRows ≠ Except.ok [5, 6] := by
  constructor
  · rfl
  · intro h
    simp [dirtyRows, toDatetimeColumn] at h

/-- C5 amended: a row whose due date cannot be parsed makes the whole
due-date conversion raise, aborting the run — no per-row skip: the
conversion succeeds, returning every row's parsed date, exactly when
every row parses. -/
theorem C5_unparsable_aborts_run (rows : List FetchedRow) :
    ((∃ r ∈ rows, r.dueDateRaw = none) →
        toDatetimeColumn rows = Except.error "ParserError") ∧
    ((∀ r ∈ rows, r.dueDateRaw ≠ none) →
        toDatetimeColumn rows = Except.ok (rows.filterMap FetchedRow.dueDateRaw)) := by
  induction rows with
  | nil =>
    exact ⟨fun ⟨r, hr, _⟩ => absurd hr (List.not_mem_nil r), fun _ => rfl⟩
  | cons a t ih =>
    constructor
    · rintro ⟨r, hr, hnone⟩
      rcases List.mem_cons.1 hr with rfl | hrt
      · simp [toDatetimeColumn, hnone]
      · cases ha : a.dueDateRaw with
        | none => simp [toDatetimeColumn, ha]
        | some d =>
          have he := ih.1 ⟨r, hrt, hnone⟩
          simp [toDatetimeColumn, ha, he]
    · intro hall
      cases ha : a.dueDateRaw with
      | none => exact absurd ha (hall a (List.mem_cons_self a t))
      | some d =>
        have he := ih.2 (fun r hr => hall r (List.mem_cons_of_mem a hr))
        simp [toDatetimeColumn, ha, he, List.filterMap_cons]

/-- C5 amended witness: a single-row frame whose only due date is
unparsable makes the conversion raise. -/
theorem C5_unparsable_aborts_run_witness :
    toDatetimeColumn [⟨none⟩] = Except.error "ParserError" :=
  (C5_unparsable_aborts_run [⟨none⟩]).1
    ⟨⟨none⟩, List.mem_singleton.mpr rfl, rfl⟩

/-- C7: if delivery fails after the artifact is rendered, the run ends
in the failed state, the artifact file is still on disk and its
location is reported; and the artifact is deleted only when delivery
succeeded and the keep-local-copy flag is false. -/
theorem C7_delivery_failure_preserves_artifact (files : List String)
    (path : String) (sendOk keep : Bool) :
    (sendOk = false →
        (renderAndDeliver files path sendOk keep).result
            = Except.error "DeliveryError" ∧
        path ∈ (renderAndDeliver files path sendOk keep).files ∧
        (renderAndDeliver files path sendOk keep).reportedLocation = some path) ∧
    (path ∉ (renderAndDeliver files path sendOk keep).files →
        sendOk = true ∧ keep = false) := by
  cases sendOk with
  | false =>
    refine ⟨fun _ => ⟨rfl, List.mem_cons_self path files, rfl⟩, fun hnot => ?_⟩
    exact absurd (List.mem_cons_self path files) hnot
  | true =>
    refine ⟨fun h => absurd h (by decide), fun hnot => ?_⟩
    cases keep with
    | false => exact ⟨rfl, rfl⟩
    | true =>
      exfalso
      apply hnot
      have hfiles : (renderAndDeliver files path true true).files = path :: files := by
        simp [renderAndDeliver, sendAndCleanup]
      rw [hfiles]
      exact List.mem_cons_self path files

/-- C7 witness: a failed delivery of a concrete rendered artifact ends
in the error state with the file still present and its path reported. -/
theorem C7_delivery_failure_preserves_artifact_witness :
    (renderAndDeliver [] "reports/Loans_Due_Report_20261012.xlsx" false true).result
        = Except.error "DeliveryError" ∧
    "reports/Loans_Due_Report_20261012.xlsx"
        ∈ (renderAndDeliver [] "reports/Loans_Due_Report_20261012.xlsx" false true).files ∧
    (renderAndDeliver [] "reports/Loans_Due_Report_20261012.xlsx" false true).reportedLocation
        = some "reports/Loans_Due_Report_20261012.xlsx" :=
  (C7_delivery_failure_preserves_artifact []
      "reports/Loans_Due_Report_20261012.xlsx" false true).1 rfl

/-- C4: the four days-remaining bucket counts of the summary sheet
partition the records with days remaining at most 7 — their sum equals
the number of such records — and a record with days remaining above 7
satisfies none of the four bucket conditions while staying in the
table. -/
theorem C4_bucket_partition (df : List LoanRecord) :
    alreadyOverdueCount df + dueTodayCount df + due1to3Count df + due4to7Count df
        = (df.filter (fun r => decide (r.daysRemaining ≤ 7))).length ∧
    ∀ r ∈ df, 7 < r.daysRemaining →
        ¬(r.daysRemaining < 0) ∧ r.daysRemaining ≠ 0 ∧
        ¬(1 ≤ r.daysRemaining ∧ r.daysRemaining ≤ 3) ∧
        ¬(4 ≤ r.daysRemaining ∧ r.daysRemaining ≤ 7) := by
  constructor
  · induction df with
    | nil => rfl
    | cons a t ih =>
      simp only [alreadyOverdueCount, dueTodayCount, due1to3Count, due4to7Count,
        List.filter_cons, decide_eq_true_eq, Bool.and_eq_true, beq_iff_eq] at ih ⊢
      split_ifs <;> (try simp only [List.length_cons]) <;> omega
  · intro r _ h7
    omega

/-- C4 witness: the partition identity on a concrete five-record table
spanning all four buckets and one farther-out record. -/
theorem C4_bucket_partition_witness :
    alreadyOverdueCount sampleDf + dueTodayCount sampleDf + due1to3Count sampleDf
            + due4to7Count sampleDf
        = (sampleDf.filter (fun r => decide (r.daysRemaining ≤ 7))).length ∧
    ∀ r ∈ sampleDf, 7 < r.daysRemaining →
        ¬(r.daysRemaining < 0) ∧ r.daysRemaining ≠ 0 ∧
        ¬(1 ≤ r.daysRemaining ∧ r.daysRemaining ≤ 3) ∧
        ¬(4 ≤ r.daysRemaining ∧ r.daysRemaining ≤ 7) :=
  C4_bucket_partition sampleDf

/-- C3: for every non-negative lookahead window and include-overdue
flag, the selector returns no record with status Paid, every returned
record's due date lies below the cutoff (and at or after today when
overdue loans are excluded), the result is ordered ascending by due
date, and it is exactly the processed image of the loans satisfying
the filter. -/
theorem C3_selector_window (loans : List Loan) (today w : Int) (inc : Bool)
    (_hw : 0 ≤ w) :
    (∀ rec ∈ fetch_due_loans loans today w inc,
        rec.loanStatus ≠ "Paid" ∧
        (inc = true → rec.dueDate ≤ today + w) ∧
        (inc = false → today ≤ rec.dueDate ∧ rec.dueDate ≤ today + w)) ∧
    List.Pairwise (fun a b : LoanRecord => a.dueDate ≤ b.dueDate)
      (fetch_due_loans loans today w inc) ∧
    List.Perm (fetch_due_loans loans today w inc)
      ((loans.filter (duePredicate today w inc)).map (processRow today)) := by
  refine ⟨?_, ?_, ?_⟩
  · intro rec hrec
    obtain ⟨l, hl, rfl⟩ := List.mem_map.1 hrec
    have hl2 : l ∈ loans.filter (duePredicate today w inc) :=
      (List.mem_insertionSort dueLE).1 hl
    have hp := (List.mem_filter.1 hl2).2
    cases inc with
    | true =>
      simp [duePredicate] at hp
      exact ⟨hp.2, fun _ => hp.1, fun hfalse => absurd hfalse (by decide)⟩
    | false =>
      simp [duePredicate] at hp
      exact ⟨hp.2, fun htrue => absurd htrue (by decide), fun _ => hp.1⟩
  · have hs : List.Sorted dueLE
        (List.insertionSort dueLE (loans.filter (duePredicate today w inc))) :=
      List.sorted_insertionSort dueLE _
    exact List.pairwise_map.mpr (hs.imp (fun h => h))
  · exact (List.perm_insertionSort dueLE _).map (processRow today)

/-- C3 witness: the selector property instantiated on a concrete table
holding an active, an overdue and a paid loan, with window 7 and
overdue loans included. -/
theorem C3_selector_window_witness :
    (∀ rec ∈ fetch_due_loans [loanA, loanB, loanP] 0 7 true,
        rec.loanStatus ≠ "Paid" ∧
        (true = true → rec.dueDate ≤ 0 + 7) ∧
        (true = false → 0 ≤ rec.dueDate ∧ rec.dueDate ≤ 0 + 7)) ∧
    List.Pairwise (fun a b : LoanRecord => a.dueDate ≤ b.dueDate)
      (fetch_due_loans [loanA, loanB, loanP] 0 7 true) ∧
    List.Perm (fetch_due_loans [loanA, loanB, loanP] 0 7 true)
      (([loanA, loanB, loanP].filter (duePredicate 0 7 true)).map (processRow 0)) :=
  C3_selector_window [loanA, loanB, loanP] 0 7 true (by decide)

/-- C1 counterexample: with a clock that advances between the fetch
stage and the render stage, no single reference date simultaneously
accounts for every record's days-remaining and for the report's
generated-on and email dates, refuting the captured-once claim. -/
theorem C1_single_reference_date_cex :
    ¬ ∃ ref : Int,
        (∀ r ∈ (runPipeline clockAdvancing [loanA] 7 true).table,
            r.daysRemaining = r.dueDate - ref) ∧
        (runPipeline clockAdvancing [loanA] 7 true).reportGeneratedDate = ref ∧
        (runPipeline clockAdvancing [loanA] 7 true).emailBodyDate = ref := by
  rintro ⟨ref, hall, hrep, -⟩
  have hmem : processRow 0 loanA ∈ (runPipeline clockAdvancing [loanA] 7 true).table := by
    decide
  have h1 : loanA.dueDate - (0 : Int) = loanA.dueDate - ref := hall _ hmem
  have h2 : (1 : Int) = ref := hrep
  omega

/-- C1 amended: within each run, every record's days-remaining equals
its due date minus the date read once at the start of the fetch stage
(the same date the selection cutoff uses); the report's generated-on
and email dates come from later, separate clock readings. -/
theorem C1_days_remaining_uses_fetch_date (clock : Nat → Int)
    (loans : List Loan) (daysAhead : Int) (inc : Bool) (r : LoanRecord)
    (hr : r ∈ (runPipeline clock loans daysAhead inc).table) :
    r.daysRemaining = r.dueDate - clock 0 := by
  have hr2 : r ∈ (List.insertionSort dueLE
      (loans.filter (duePredicate (clock 0) daysAhead inc))).map
        (processRow (clock 0)) := hr
  obtain ⟨l, _, rfl⟩ := List.mem_map.1 hr2
  rfl

/-- C1 amended witness: on the advancing clock, the sample loan's
record is in the table and its days-remaining is its due date minus
the fetch-stage clock reading. -/
theorem C1_days_remaining_uses_fetch_date_witness :
    processRow 0 loanA ∈ (runPipeline clockAdvancing [loanA] 7 true).table ∧
    (processRow 0 loanA).daysRemaining
        = (processRow 0 loanA).dueDate - clockAdvancing 0 :=
  ⟨by decide,
    C1_days_remaining_uses_fetch_date clockAdvancing [loanA] 7 true _ (by decide)⟩

end LoanMonitor
